import Mathlib

/-!
Verification of the Blandwork web framework's middleware pipeline:
a shallow embedding of the trigger-event model, the Context and
Template middleware wrapping logic, the navigation-resolution
algorithm, and the builder's layer ordering, with theorems settling
the behavioural claims about them.
-/

set_option maxRecDepth 10000

namespace Blandwork

/-- A JSON value, as produced by the serde serialization the framework
uses for trigger events (numbers and booleans never occur in the
framework's own payloads, so they are omitted). -/
inductive Json where
  | null : Json
  | str : String → Json
  | arr : List Json → Json
  | obj : List (String × Json) → Json

/-- Hexadecimal digit, for serde's control-character escapes. -/
def hexDigit (n : Nat) : Char :=
  if n < 10 then Char.ofNat (48 + n) else Char.ofNat (87 + n)

/-- serde_json escaping of one character inside a string literal. -/
def jsonEscapeChar (c : Char) : String :=
  if c = '"' then "\\\""
  else if c = '\\' then "\\\\"
  else if c = '\n' then "\\n"
  else if c = '\t' then "\\t"
  else if c = '\r' then "\\r"
  else if c = '\x08' then "\\b"
  else if c = '\x0c' then "\\f"
  else if c.val < 32 then
    "\\u00" ++ String.singleton (hexDigit (c.val.toNat / 16)) ++ String.singleton (hexDigit (c.val.toNat % 16))
  else String.singleton c

/-- serde_json rendering of a string literal, quotes included. -/
def jsonQuote (s : String) : String :=
  "\"" ++ String.join (s.data.map jsonEscapeChar) ++ "\""

mutual

/-- Compact rendering of a JSON value, as serde_json's `to_string`
produces it (no whitespace). -/
def Json.render : Json → String
  | .null => "null"
  | .str s => jsonQuote s
  | .arr xs => "[" ++ Json.renderList xs ++ "]"
  | .obj kvs => "\x7b" ++ Json.renderObj kvs ++ "\x7d"

/-- Comma-separated rendering of the elements of a JSON array. -/
def Json.renderList : List Json → String
  | [] => ""
  | [x] => Json.render x
  | x :: y :: xs => Json.render x ++ "," ++ Json.renderList (y :: xs)

/-- Comma-separated rendering of the entries of a JSON object. -/
def Json.renderObj : List (String × Json) → String
  | [] => ""
  | [(k, v)] => jsonQuote k ++ ":" ++ Json.render v
  | (k, v) :: kv :: kvs => jsonQuote k ++ ":" ++ Json.render v ++ "," ++ Json.renderObj (kv :: kvs)

end

/-- One outbound trigger signal (`Event` in `blandwork/src/context.rs`):
a key and an optional payload.  In the source the payload is any
serializable value whose JSON form parses as an object (its fields are
flattened by `impl Serialize for Event`, and serialization fails
otherwise), so it is embedded here as the parsed field map. -/
structure Event where
  key : String
  data : Option (List (String × Json))

/-- `Event::new`: an event carrying a payload. -/
def Event.new (key : String) (fields : List (String × Json)) : Event :=
  ⟨key, some fields⟩

/-- `Event.empty`: an event with no payload. -/
def Event.empty (key : String) : Event :=
  ⟨key, none⟩

/-- `impl Serialize for Event`: the payload's fields are flattened into
a JSON object when present; an event without payload serializes as
`null`. -/
def Event.toJson : Event → Json
  | ⟨_, none⟩ => Json.null
  | ⟨_, some fields⟩ => Json.obj fields

/-- One step of `Triggers::group_triggers`: the
`entry(key).or_insert_with(Vec::new).push(event)` pattern on an
association list — append the event to its key's group, creating the
group if absent. -/
def insertEvent (e : Event) : List (String × List Event) → List (String × List Event)
  | [] => [(e.key, [e])]
  | (k, g) :: rest =>
    if k == e.key then (k, g ++ [e]) :: rest
    else (k, g) :: insertEvent e rest

/-- `Triggers::group_triggers`: group the accumulated events by key,
preserving per-key insertion order.  The source collects groups into a
`HashMap`; this embedding lists the groups in first-occurrence order,
which fixes the (unspecified) map iteration order without affecting
any per-key lookup. -/
def group_triggers (events : List Event) : List (String × List Event) :=
  events.foldl (fun acc e => insertEvent e acc) []

/-- The serialized value of one key's group in `impl Serialize for
Triggers`: an array of the serialized events when the group has more
than one element (`count > 1`), and the single serialized event
otherwise.  (Groups are nonempty by construction; the source indexes
`g[0]` in the singleton branch.) -/
def groupValue (g : List Event) : Json :=
  if g.length > 1 then Json.arr (g.map Event.toJson)
  else Event.toJson (g.headD (Event.empty ""))

/-- `impl Serialize for Triggers`: serialize the grouped accumulator
as a JSON object, one entry per key. -/
def Triggers.toJson (events : List Event) : Json :=
  Json.obj ((group_triggers events).map (fun g => (g.1, groupValue g.2)))

/-- `impl Display for Triggers`: the serde_json string of the
serialized accumulator; this is what becomes the header value. -/
def Triggers.toString (events : List Event) : String :=
  (Triggers.toJson events).render

/-- Lookup of a key in a serialized JSON object. -/
def jsonLookup (k : String) : Json → Option Json
  | .obj kvs => List.lookup k kvs
  | _ => none

/-- How a key's final group relates to what was grouped before (`acc`)
and the events still to come: used to state the grouping invariant. -/
def combineGroup (acc : Option (List Event)) (f : List Event) : Option (List Event) :=
  match acc with
  | some g => some (g ++ f)
  | none => if f.isEmpty then none else some f

theorem lookup_insertEvent_eq (e : Event) (acc : List (String × List Event)) :
    List.lookup e.key (insertEvent e acc) =
      some (((List.lookup e.key acc).getD []) ++ [e]) := by
  induction acc with
  | nil => simp [insertEvent, List.lookup]
  | cons kg rest ih =>
    obtain ⟨k, g⟩ := kg
    by_cases h : k = e.key
    · subst h
      simp [insertEvent, List.lookup]
    · have hb : (e.key == k) = false := beq_eq_false_iff_ne.mpr (Ne.symm h)
      have hb2 : (k == e.key) = false := beq_eq_false_iff_ne.mpr h
      simp [insertEvent, List.lookup, hb, hb2, ih]

theorem lookup_insertEvent_ne (k : String) (e : Event) (acc : List (String × List Event))
    (h : k ≠ e.key) :
    List.lookup k (insertEvent e acc) = List.lookup k acc := by
  induction acc with
  | nil =>
    simp [insertEvent, List.lookup, beq_eq_false_iff_ne.mpr h]
  | cons kg rest ih =>
    obtain ⟨k2, g⟩ := kg
    by_cases h2 : k2 = e.key
    · subst h2
      simp [insertEvent, List.lookup, beq_eq_false_iff_ne.mpr h]
    · have hb2 : (k2 == e.key) = false := beq_eq_false_iff_ne.mpr h2
      by_cases h3 : k = k2
      · subst h3
        simp [insertEvent, List.lookup, hb2]
      · simp [insertEvent, List.lookup, hb2, beq_eq_false_iff_ne.mpr h3, ih]

theorem lookup_foldl_insertEvent (k : String) (es : List Event) :
    ∀ acc : List (String × List Event),
      List.lookup k (es.foldl (fun a e => insertEvent e a) acc) =
        combineGroup (List.lookup k acc) (es.filter (fun e => e.key == k)) := by
  induction es with
  | nil =>
    intro acc
    cases h : List.lookup k acc <;> simp [combineGroup, h]
  | cons e es ih =>
    intro acc
    by_cases hk : e.key = k
    · subst hk
      have step := lookup_insertEvent_eq e acc
      simp only [List.foldl_cons, List.filter_cons, beq_self_eq_true, if_pos, ih, step]
      cases h : List.lookup e.key acc <;>
        simp [combineGroup, h, List.append_assoc]
    · have hb : (e.key == k) = false := beq_eq_false_iff_ne.mpr hk
      have step := lookup_insertEvent_ne k e acc (Ne.symm hk)
      simp only [List.foldl_cons, List.filter_cons, hb, ih, step, Bool.false_eq_true,
        if_neg, ite_false]

theorem lookup_group_triggers (k : String) (events : List Event) :
    List.lookup k (group_triggers events) =
      combineGroup none (events.filter (fun e => e.key == k)) := by
  simpa using lookup_foldl_insertEvent k events []

theorem lookup_map_groupValue (k : String) (l : List (String × List Event)) :
    List.lookup k (l.map (fun g => (g.1, groupValue g.2))) =
      (List.lookup k l).map groupValue := by
  induction l with
  | nil => simp
  | cons g rest ih =>
    obtain ⟨k2, v⟩ := g
    by_cases h : k = k2
    · subst h
      simp [List.lookup]
    · simp [List.lookup, beq_eq_false_iff_ne.mpr h, ih]

theorem jsonLookup_triggers (k : String) (events : List Event) :
    jsonLookup k (Triggers.toJson events) =
      (combineGroup none (events.filter (fun e => e.key == k))).map groupValue := by
  simp [jsonLookup, Triggers.toJson, lookup_map_groupValue, lookup_group_triggers]

/-- Claim C4: trigger serialization groups events by key; a key with
exactly one event serializes as that event alone (its payload's fields
flattened into one object, or `null` with no payload); a key with two
or more events serializes as an array of the events in insertion
order, empty-payload events appearing as `null`; and one empty event
followed by one `name: X` event under key `K` serializes to
`{"K":[null,{"name":"X"}]}`. -/
theorem trigger_serialization (events : List Event) (k : String) :
    (∀ e, events.filter (fun x => x.key == k) = [e] →
        jsonLookup k (Triggers.toJson events) = some (Event.toJson e)) ∧
    (∀ e1 e2 rest, events.filter (fun x => x.key == k) = e1 :: e2 :: rest →
        jsonLookup k (Triggers.toJson events) =
          some (Json.arr ((e1 :: e2 :: rest).map Event.toJson))) ∧
    Triggers.toString [Event.empty "K", Event.new "K" [("name", Json.str "X")]] =
      "\x7b\"K\":[null,\x7b\"name\":\"X\"\x7d]\x7d" := by
  refine ⟨?_, ?_, by rfl⟩
  · intro e hf
    rw [jsonLookup_triggers, hf]
    simp [combineGroup, groupValue]
  · intro e1 e2 rest hf
    rw [jsonLookup_triggers, hf]
    simp [combineGroup, groupValue, Nat.succ_lt_succ]

/-- Witness for C4: both serialization shapes evaluated on concrete
accumulators. -/
theorem trigger_serialization_witness :
    jsonLookup "K" (Triggers.toJson [Event.empty "K", Event.new "K" [("name", Json.str "X")]]) =
      some (Json.arr [Json.null, Json.obj [("name", Json.str "X")]]) ∧
    jsonLookup "K" (Triggers.toJson [Event.new "K" [("name", Json.str "X")]]) =
      some (Json.obj [("name", Json.str "X")]) :=
  ⟨(trigger_serialization [Event.empty "K", Event.new "K" [("name", Json.str "X")]] "K").2.1
      (Event.empty "K") (Event.new "K" [("name", Json.str "X")]) [] (by rfl),
   (trigger_serialization [Event.new "K" [("name", Json.str "X")]] "K").1
      (Event.new "K" [("name", Json.str "X")]) (by rfl)⟩

/-! ## Navigation model (`navigator.rs`) -/

/-- One navigation entry (`Link` in `navigator.rs`). -/
structure Link where
  active : Bool
  title : String
  label : String
  route : String
  icon : Option String
  css : Option String
deriving DecidableEq

/-- Byte-lexicographic `≤` on strings, as Rust's `Ord for String`
compares (UTF-8 byte order coincides with code-point order). -/
def charListLe : List Char → List Char → Bool
  | [], _ => true
  | _ :: _, [] => false
  | a :: as, b :: bs =>
    if a.val < b.val then true
    else if b.val < a.val then false
    else charListLe as bs

/-- Insert a link into a list already sorted by route in descending
order, after every entry whose route is `≥` — so that folding the
whole list through this is the stable descending sort performed by
`self.links.sort_by_key(|link| Reverse(link.route.clone()))`. -/
def insertDescByRoute (l : Link) : List Link → List Link
  | [] => [l]
  | x :: xs =>
    if charListLe l.route.data x.route.data then x :: insertDescByRoute l xs
    else l :: x :: xs

/-- `sort_by_key(Reverse(route))`: stable sort by route, descending. -/
def sortByRouteDesc (links : List Link) : List Link :=
  links.foldl (fun acc l => insertDescByRoute l acc) []

/-- The marking loop of `Navigator::set_current`: walk the list, set
`active` on the first link satisfying the test, and `break`. -/
def markFirstActive (p : Link → Bool) : List Link → List Link
  | [] => []
  | x :: xs =>
    if p x then { x with active := true } :: xs
    else x :: markFirstActive p xs

/-- `Navigator::set_current(path)`: sort the links by route
descending, reset every `active` flag, then mark the first link whose
test passes.  The test in the source is `link.route.starts_with(path)`
— the route begins with the request path. -/
def set_current (links : List Link) (path : String) : List Link :=
  markFirstActive (fun l => path.data.isPrefixOf l.route.data)
    ((sortByRouteDesc links).map (fun l => { l with active := false }))

/-- `Navigator::current_link`: the first link with `active` set. -/
def current_link (links : List Link) : Option Link :=
  links.find? (fun l => l.active)

theorem find_markFirstActive (p : Link → Bool) (xs : List Link)
    (h : ∀ l ∈ xs, l.active = false) :
    (markFirstActive p xs).find? (fun l => l.active) =
      (xs.find? p).map (fun l => { l with active := true }) := by
  induction xs with
  | nil => simp [markFirstActive]
  | cons x xs ih =>
    by_cases hp : p x
    · simp [markFirstActive, hp, List.find?]
    · have hx : x.active = false := h x (by simp)
      have ih2 := ih (fun l hl => h l (by simp [hl]))
      simp [markFirstActive, hp, List.find?, hx, ih2]

theorem countP_markFirstActive (p : Link → Bool) (xs : List Link)
    (h : ∀ l ∈ xs, l.active = false) :
    (markFirstActive p xs).countP (fun l => l.active) ≤ 1 := by
  induction xs with
  | nil => simp [markFirstActive]
  | cons x xs ih =>
    by_cases hp : p x
    · have hz : xs.countP (fun l => l.active) = 0 := by
        rw [List.countP_eq_zero]
        intro a ha
        simp [h a (by simp [ha])]
      simp [markFirstActive, hp, List.countP_cons, hz]
    · have hx : x.active = false := h x (by simp)
      have ih2 := ih (fun l hl => h l (by simp [hl]))
      simp [markFirstActive, hp, List.countP_cons, hx]
      exact ih2

theorem reset_all_inactive (ys : List Link) :
    ∀ l ∈ ys.map (fun l => { l with active := false }), l.active = false := by
  intro l hl
  rw [List.mem_map] at hl
  obtain ⟨a, _, rfl⟩ := hl
  rfl

/-- Claim C1 (amended): after `set_current`, sorting by route in
descending lexical order and resetting all flags, the first link in
sorted order whose route *starts with* the request path (the path is
a string-prefix of the route — the reverse containment of the
original claim) is the unique active link; iteration stops at that
first match, at most one link is active, and `current_link` returns
exactly that link (or none). -/
theorem nav_resolution (links : List Link) (path : String) :
    (set_current links path).countP (fun l => l.active) ≤ 1 ∧
    current_link (set_current links path) =
      (((sortByRouteDesc links).map (fun l => { l with active := false })).find?
          (fun l => path.data.isPrefixOf l.route.data)).map
        (fun l => { l with active := true }) := by
  constructor
  · exact countP_markFirstActive _ _ (reset_all_inactive _)
  · exact find_markFirstActive _ _ (reset_all_inactive _)

/-- The `/a` link of the claim's activation example. -/
def linkA : Link :=
  { active := false, title := "A", label := "a", route := "/a", icon := none, css := none }

/-- The `/ab` link of the claim's activation example. -/
def linkAB : Link :=
  { active := false, title := "AB", label := "ab", route := "/ab", icon := none, css := none }

/-- Counterexample to C1 as stated: for links `/a`, `/ab` and request
path `/ab/x`, the route `/ab` *is* a string-prefix of the path, yet
the code activates no link at all (`current_link` returns none and no
`active` flag is set), because `set_current` tests
`link.route.starts_with(path)` — the reverse containment. -/
theorem nav_resolution_cex :
    ("/ab" : String).data.isPrefixOf ("/ab/x" : String).data = true ∧
    current_link (set_current [linkA, linkAB] "/ab/x") = none ∧
    (set_current [linkA, linkAB] "/ab/x").countP (fun l => l.active) = 0 := by
  decide

/-! ## Per-request context (`blandwork/src/context.rs`) -/

/-- The request-header snapshot a `Ctx` keeps.  The source stores the
full `HeaderMap` but only ever reads whether `HX-Request` and
`HX-Boosted` are present (`contains_key`), so the embedding keeps the
two presence flags. -/
structure ReqHeaders where
  hx_request : Bool
  hx_boosted : Bool
deriving DecidableEq

/-- The per-request context (`Ctx` in `blandwork/src/context.rs`):
the mutable page title, the generated request id, the request path,
the header snapshot, the trigger accumulator, and the navigation
snapshot. -/
structure Ctx where
  title : String
  context_id : String
  path : String
  headers : ReqHeaders
  triggers : List Event
  links : List Link

/-- `Triggers::add`: push one event onto the accumulator. -/
def Triggers.add (ts : List Event) (e : Event) : List Event :=
  ts ++ [e]

/-- `PageContext::is_htmx`: the `HX-Request` header is present. -/
def PageContext.is_htmx (c : Ctx) : Bool :=
  c.headers.hx_request

/-- `PageContext::is_boosted`: the `HX-Boosted` header is present. -/
def PageContext.is_boosted (c : Ctx) : Bool :=
  c.headers.hx_boosted

/-- `PageContext::add_trigger`: record an event with a payload. -/
def PageContext.add_trigger (c : Ctx) (key : String) (fields : List (String × Json)) : Ctx :=
  { c with triggers := Triggers.add c.triggers (Event.new key fields) }

/-- `PageContext::empty_trigger`: record an event with no payload. -/
def PageContext.empty_trigger (c : Ctx) (key : String) : Ctx :=
  { c with triggers := Triggers.add c.triggers (Event.empty key) }

/-- `PageContext::triggers`: the serialized accumulator as the header
value string. -/
def PageContext.triggers (c : Ctx) : String :=
  Triggers.toString c.triggers

/-- `PageContext::title(section)`: compute `"{title} | {section}"`
(just the stored title when the section is empty), overwrite the
stored title with it, record a `titleUpdate` trigger carrying the new
title, and return it.  The returned pair is the computed title and
the updated context. -/
def PageContext.title (c : Ctx) (sect : String) : String × Ctx :=
  let t := if sect.length > 0 then c.title ++ " | " ++ sect else c.title
  (t, PageContext.add_trigger { c with title := t } "titleUpdate" [("title", Json.str t)])

/-- The effect on the response's header map of
`response.headers_mut().extend(headers)` for a one-entry map: replace
the value stored under the name, or append the entry. -/
def setHeader (name value : String) : List (String × String) → List (String × String)
  | [] => [(name, value)]
  | (n, v) :: rest =>
    if n == name then (n, value) :: rest
    else (n, v) :: setHeader name value rest

/-- Response phase of `ContextService::call`: after the inner handler
responds, insert the `HX-Trigger` header carrying the serialized
accumulator — but only when the request is boosted; otherwise the
response is returned untouched. -/
def ContextService.call (c : Ctx) (responseHeaders : List (String × String)) :
    List (String × String) :=
  if PageContext.is_boosted c then
    setHeader "HX-Trigger" (PageContext.triggers c) responseHeaders
  else responseHeaders

theorem lookup_setHeader (name value : String) (hs : List (String × String)) :
    List.lookup name (setHeader name value hs) = some value := by
  induction hs with
  | nil => simp [setHeader, List.lookup]
  | cons nv rest ih =>
    obtain ⟨n, v⟩ := nv
    by_cases h : n = name
    · subst h
      simp [setHeader, List.lookup]
    · simp [setHeader, List.lookup, beq_eq_false_iff_ne.mpr h,
        beq_eq_false_iff_ne.mpr (Ne.symm h), ih]

/-- Claim C3: when the inner handler's response carries no trigger
header of its own, the Context middleware's response contains the
`HX-Trigger` header exactly when the request is boosted — a plain
request's response never gains it, whatever events the handler
accumulated. -/
theorem trigger_header_gating (c : Ctx) (resp : List (String × String))
    (h : List.lookup "HX-Trigger" resp = none) :
    (List.lookup "HX-Trigger" (ContextService.call c resp)).isSome =
      PageContext.is_boosted c := by
  cases hb : PageContext.is_boosted c with
  | true => simp [ContextService.call, hb, lookup_setHeader]
  | false => simp [ContextService.call, hb, h]

/-- A boosted request's context with an empty accumulator. -/
def boostedCtx : Ctx :=
  { title := "App", context_id := "", path := "/", headers := ⟨true, true⟩,
    triggers := [], links := [] }

/-- A plain (non-boosted) request's context whose handler accumulated
an event. -/
def plainEventCtx : Ctx :=
  { title := "App", context_id := "", path := "/", headers := ⟨false, false⟩,
    triggers := [Event.empty "saved"], links := [] }

/-- Witness for C3: a boosted request gains the header, a plain
request with an accumulated event does not. -/
theorem trigger_header_gating_witness :
    (List.lookup "HX-Trigger" (ContextService.call boostedCtx [])).isSome = true ∧
    (List.lookup "HX-Trigger"
        (ContextService.call plainEventCtx [("Content-Type", "text/html")])).isSome = false :=
  ⟨trigger_header_gating boostedCtx [] (by rfl),
   trigger_header_gating plainEventCtx [("Content-Type", "text/html")] (by rfl)⟩

/-- Claim C9: a boosted request's response always receives the
`HX-Trigger` header, even with no accumulated events — its value is
then the empty JSON object `{}`. -/
theorem boosted_trigger_header_always (c : Ctx) (resp : List (String × String))
    (hb : PageContext.is_boosted c = true) (he : c.triggers = []) :
    List.lookup "HX-Trigger" (ContextService.call c resp) = some "\x7b\x7d" := by
  have hv : PageContext.triggers c = "\x7b\x7d" := by
    rw [PageContext.triggers, he]
    rfl
  simp [ContextService.call, hb, lookup_setHeader, hv]

/-- Witness for C9 at a concrete boosted, event-free context. -/
theorem boosted_trigger_header_always_witness :
    List.lookup "HX-Trigger" (ContextService.call boostedCtx []) = some "\x7b\x7d" :=
  boosted_trigger_header_always boostedCtx [] (by rfl) (by rfl)

/-- Claim C5 (amended): computing the title twice with the same
section argument returns the same string only when the section is
empty.  With a non-empty section every call overwrites the stored
title and appends the section again, so the second call returns the
first result with a duplicate `" | section"` suffix. -/
theorem title_computation (c : Ctx) (sect : String) :
    (sect = "" →
      (PageContext.title (PageContext.title c sect).2 sect).1 = (PageContext.title c sect).1) ∧
    (sect ≠ "" →
      (PageContext.title (PageContext.title c sect).2 sect).1 =
        (PageContext.title c sect).1 ++ " | " ++ sect) := by
  constructor
  · intro h
    subst h
    rfl
  · intro h
    have hlen : sect.length > 0 := by
      cases hs : sect.data with
      | nil => exact absurd (String.ext hs) h
      | cons a l => simp [String.length, hs]
    simp [PageContext.title, PageContext.add_trigger, hlen]

/-- Witness for C5 (amended): both branches at concrete inputs. -/
theorem title_computation_witness :
    (PageContext.title (PageContext.title boostedCtx "").2 "").1 =
      (PageContext.title boostedCtx "").1 ∧
    (PageContext.title (PageContext.title boostedCtx "S").2 "S").1 =
      (PageContext.title boostedCtx "S").1 ++ " | " ++ "S" :=
  ⟨(title_computation boostedCtx "").1 (by rfl),
   (title_computation boostedCtx "S").2 (by decide)⟩

/-- Counterexample to C5 as stated: starting from the title `App`,
computing the title with section `S` twice yields `App | S` then
`App | S | S` — the second computation duplicates the suffix. -/
theorem title_idempotence_cex :
    (PageContext.title plainEventCtx "S").1 = "App | S" ∧
    (PageContext.title (PageContext.title plainEventCtx "S").2 "S").1 = "App | S | S" ∧
    (PageContext.title (PageContext.title plainEventCtx "S").2 "S").1 ≠
      (PageContext.title plainEventCtx "S").1 := by
  refine ⟨by rfl, by rfl, by decide⟩

/-- Claim C10: every `PageContext::title` call, for any section
argument (the empty string included), appends exactly one
`titleUpdate` event whose payload carries the newly computed title to
the request's accumulator. -/
theorem title_adds_titleUpdate_trigger (c : Ctx) (sect : String) :
    (PageContext.title c sect).2.triggers =
      c.triggers ++
        [Event.new "titleUpdate" [("title", Json.str (PageContext.title c sect).1)]] := rfl

/-! ## Template middleware (`blandwork/src/template.rs`) -/

/-- UTF-8 decoding of a byte sequence, with the exact validity rules
`String::from_utf8` enforces: no bytes `0x80..0xC1` or `0xF5..0xFF`
in lead position, continuation bytes in `0x80..0xBF`, no overlong
encodings (the `0xE0`/`0xF0` second-byte floors), no surrogates (the
`0xED` second-byte ceiling), and nothing above `U+10FFFF` (the `0xF4`
second-byte ceiling). -/
def utf8DecodeChars : List Nat → Option (List Char)
  | [] => some []
  | b1 :: rest =>
    if b1 < 0x80 then
      (utf8DecodeChars rest).map (fun cs => Char.ofNat b1 :: cs)
    else if b1 < 0xC2 then none
    else if b1 < 0xE0 then
      match rest with
      | b2 :: rest2 =>
        if 0x80 ≤ b2 ∧ b2 < 0xC0 then
          (utf8DecodeChars rest2).map
            (fun cs => Char.ofNat ((b1 - 0xC0) * 0x40 + (b2 - 0x80)) :: cs)
        else none
      | [] => none
    else if b1 < 0xF0 then
      match rest with
      | b2 :: b3 :: rest3 =>
        if (if b1 = 0xE0 then 0xA0 ≤ b2 ∧ b2 < 0xC0
            else if b1 = 0xED then 0x80 ≤ b2 ∧ b2 < 0xA0
            else 0x80 ≤ b2 ∧ b2 < 0xC0) ∧ 0x80 ≤ b3 ∧ b3 < 0xC0 then
          (utf8DecodeChars rest3).map
            (fun cs => Char.ofNat ((b1 - 0xE0) * 0x1000 + (b2 - 0x80) * 0x40 + (b3 - 0x80)) :: cs)
        else none
      | _ => none
    else if b1 < 0xF5 then
      match rest with
      | b2 :: b3 :: b4 :: rest4 =>
        if (if b1 = 0xF0 then 0x90 ≤ b2 ∧ b2 < 0xC0
            else if b1 = 0xF4 then 0x80 ≤ b2 ∧ b2 < 0x90
            else 0x80 ≤ b2 ∧ b2 < 0xC0) ∧ 0x80 ≤ b3 ∧ b3 < 0xC0 ∧ 0x80 ≤ b4 ∧ b4 < 0xC0 then
          (utf8DecodeChars rest4).map
            (fun cs => Char.ofNat
              ((b1 - 0xF0) * 0x40000 + (b2 - 0x80) * 0x1000 + (b3 - 0x80) * 0x40 + (b4 - 0x80)) :: cs)
        else none
      | _ => none
    else none

/-- `String::from_utf8(bytes.to_vec())` as a fallible operation: the
decoded string, or `none` where the source's `unwrap` would panic. -/
def utf8Decode (bytes : List Nat) : Option String :=
  (utf8DecodeChars bytes).map (fun cs => ⟨cs⟩)

/-- What the Template middleware hands back for one request: the
possible results of the body-rewriting phase of
`TemplateService::call`. -/
inductive TemplateOutcome where
  | panicked : TemplateOutcome
  | passthrough : TemplateOutcome
  | errorResponse (status : Nat) (body : String) : TemplateOutcome
  | wrapped (status : Nat) (body : String) : TemplateOutcome
deriving DecidableEq

/-- Body-rewriting logic of `TemplateService::call`.  `accessor` is
the `ContextAccessor` looked up in the request extensions — the
source calls `.unwrap()` on it, so a missing context is a panic
before anything else happens.  `buffered` is the result of
`to_bytes(body, usize::MAX)`.  For a boosted request the inner
response passes through untouched; otherwise a buffering failure
becomes `(500, "")`, a non-UTF-8 body panics at
`String::from_utf8(..).unwrap()`, and a decoded fragment is replaced
by the rendered full page with status 200.  `render` stands for the
successful full-page rendering of the external minijinja engine
(whose own template-environment failures are out of scope). -/
def TemplateService.call (render : String → String) (accessor : Option Ctx)
    (buffered : Except Unit (List Nat)) : TemplateOutcome :=
  match accessor with
  | none => .panicked
  | some c =>
    if PageContext.is_boosted c then .passthrough
    else
      match buffered with
      | .error _ => .errorResponse 500 ""
      | .ok bytes =>
        match utf8Decode bytes with
        | none => .panicked
        | some content => .wrapped 200 (render content)

/-- A middleware position in a route group's layer stack. -/
inductive MW where
  | contextMW : MW
  | templateMW : MW
  | handlerMW : MW
deriving DecidableEq

/-- `Router::layer`: wrap the whole existing stack in one more layer;
the layer applied last is outermost and runs first on a request. -/
def Router.layer (stack : List MW) (m : MW) : List MW :=
  m :: stack

/-- The layering `App::build` applies to a feature's web router:
`web.layer(TemplateLayer::new(..)).layer(ContextLayer::new())`,
read as execution order from the head. -/
def build_web_stack : List MW :=
  Router.layer (Router.layer [MW.handlerMW] MW.templateMW) MW.contextMW

/-- Claim C2 (amended): the Template middleware returns the inner
response unchanged exactly when the request carries the
boosted-navigation header (`HX-Boosted`); a request carrying only the
enhancement-library header (`HX-Request`) is still wrapped, and this
snapshot has no "ignored" hook — any non-boosted request whose body
buffers and decodes has its body replaced by the template's full-page
output. -/
theorem wrapping_suppressed_iff_boosted (render : String → String) (c : Ctx)
    (buffered : Except Unit (List Nat)) :
    (TemplateService.call render (some c) buffered = .passthrough ↔
      PageContext.is_boosted c = true) ∧
    (∀ bytes content, PageContext.is_boosted c = false → buffered = .ok bytes →
      utf8Decode bytes = some content →
      TemplateService.call render (some c) buffered = .wrapped 200 (render content)) := by
  constructor
  · constructor
    · intro h
      cases hb : PageContext.is_boosted c with
      | true => rfl
      | false =>
        rw [TemplateService.call.eq_def] at h
        simp only [hb] at h
        cases buffered with
        | error e => simp at h
        | ok bytes =>
          cases hd : utf8Decode bytes <;> simp [hd] at h
    · intro hb
      simp [TemplateService.call, hb]
  · intro bytes content hb hbuf hdec
    subst hbuf
    simp [TemplateService.call, hb, hdec]

/-- Witness for C2 (amended): a boosted request passes through; a
plain request's two-byte body `hi` is wrapped. -/
theorem wrapping_suppressed_iff_boosted_witness :
    TemplateService.call (fun s => s) (some boostedCtx) (Except.ok []) =
      TemplateOutcome.passthrough ∧
    TemplateService.call (fun s => s) (some plainEventCtx) (Except.ok [104, 105]) =
      TemplateOutcome.wrapped 200 "hi" :=
  ⟨(wrapping_suppressed_iff_boosted (fun s => s) boostedCtx (Except.ok [])).1.mpr (by rfl),
   (wrapping_suppressed_iff_boosted (fun s => s) plainEventCtx (Except.ok [104, 105])).2
      [104, 105] "hi" (by rfl) (by rfl) (by rfl)⟩

/-- A context whose request carries the enhancement-library header
`HX-Request` but not `HX-Boosted`. -/
def htmxOnlyCtx : Ctx :=
  { title := "App", context_id := "", path := "/", headers := ⟨true, false⟩,
    triggers := [], links := [] }

/-- Counterexample to C2 as stated: a request carrying the
enhancement-library header (`HX-Request`) but not `HX-Boosted` does
not receive the raw fragment — the middleware still replaces the body
with the template's full-page output, because `TemplateService::call`
tests only `is_boosted`. -/
theorem template_enhanced_header_cex :
    PageContext.is_htmx htmxOnlyCtx = true ∧
    TemplateService.call (fun s => s) (some htmxOnlyCtx) (Except.ok [102, 114, 97, 103]) =
      TemplateOutcome.wrapped 200 "frag" ∧
    TemplateService.call (fun s => s) (some htmxOnlyCtx) (Except.ok [102, 114, 97, 103]) ≠
      TemplateOutcome.passthrough := by
  refine ⟨by rfl, by rfl, by decide⟩

/-- Claim C7: for a non-boosted request whose body buffering fails,
the Template middleware returns the fixed `(500, "")` response — no
partial output escapes. -/
theorem buffering_failure_500 (render : String → String) (c : Ctx)
    (h : PageContext.is_boosted c = false) :
    TemplateService.call render (some c) (Except.error ()) =
      TemplateOutcome.errorResponse 500 "" := by
  simp [TemplateService.call, h]

/-- Witness for C7 at a concrete plain-request context. -/
theorem buffering_failure_500_witness :
    TemplateService.call (fun s => s) (some plainEventCtx) (Except.error ()) =
      TemplateOutcome.errorResponse 500 "" :=
  buffering_failure_500 (fun s => s) plainEventCtx (by rfl)

/-- Claim C6 (amended): a non-boosted request whose body buffers but
is not valid UTF-8 makes the middleware panic at
`String::from_utf8(..).unwrap()` — request processing aborts instead
of producing the fixed 500 response (which is reserved for buffering
failures). -/
theorem nonutf8_body_panics (render : String → String) (c : Ctx) (bytes : List Nat)
    (h1 : PageContext.is_boosted c = false) (h2 : utf8Decode bytes = none) :
    TemplateService.call render (some c) (Except.ok bytes) = TemplateOutcome.panicked := by
  simp [TemplateService.call, h1, h2]

/-- Witness for C6 (amended) at the invalid byte `0xFF`. -/
theorem nonutf8_body_panics_witness :
    TemplateService.call (fun s => s) (some plainEventCtx) (Except.ok [255]) =
      TemplateOutcome.panicked :=
  nonutf8_body_panics (fun s => s) plainEventCtx [255] (by rfl) (by rfl)

/-- Counterexample to C6 as stated: on the invalid byte `0xFF` the
middleware's outcome is the `unwrap` panic, which is not the fixed
`(500, "")` response the claim describes. -/
theorem nonutf8_500_cex :
    TemplateService.call (fun s => s) (some htmxOnlyCtx) (Except.ok [255]) =
      TemplateOutcome.panicked ∧
    TemplateService.call (fun s => s) (some htmxOnlyCtx) (Except.ok [255]) ≠
      TemplateOutcome.errorResponse 500 "" := by
  refine ⟨by rfl, by decide⟩

/-- Claim C8: a request reaching the Template middleware without a
Context handle in the request extensions fails fast — the
`extensions.get::<ContextAccessor>().unwrap()` panic happens before
the inner handler runs, whatever the body would have been — and the
builder layers web route groups with the Context layer applied after
(hence outside, hence running before) the Template layer. -/
theorem ordering_fail_fast (render : String → String) (buffered : Except Unit (List Nat)) :
    TemplateService.call render none buffered = TemplateOutcome.panicked ∧
    build_web_stack = [MW.contextMW, MW.templateMW, MW.handlerMW] :=
  ⟨rfl, rfl⟩

end Blandwork
